import Mathlib

/-!
Shallow embedding of the core data model of a ZenFS-style zoned-block-device
storage backend, from `src/env/zbd_zenfs.h` and `src/env/io_zenfs.h`.

Pointers are modelled as numeric identifiers (`Nat`), nullable pointers as
`Option Nat`.  Machine integers are modelled as `Nat`/`Int` (no arithmetic in
the embedded code can overflow on the inputs considered).  Functions whose
bodies live in the headers are translated directly; functions only declared
in the headers are modelled from the specification and say so in their doc
comments.
-/

namespace ZenFS

/-- `Env::WriteLifeTimeHint` from the RocksDB Env interface. -/
inductive WriteLifeTimeHint where
  | WLTH_NOT_SET
  | WLTH_NONE
  | WLTH_SHORT
  | WLTH_MEDIUM
  | WLTH_LONG
  | WLTH_EXTREME
deriving DecidableEq, Repr

/-- Integral code of a lifetime hint, as stored in encoded metadata. -/
def WriteLifeTimeHint.code : WriteLifeTimeHint → Nat
  | .WLTH_NOT_SET => 0
  | .WLTH_NONE => 1
  | .WLTH_SHORT => 2
  | .WLTH_MEDIUM => 3
  | .WLTH_LONG => 4
  | .WLTH_EXTREME => 5

/-- Inverse of `WriteLifeTimeHint.code`, used when decoding metadata. -/
def WriteLifeTimeHint.ofCode : Nat → WriteLifeTimeHint
  | 0 => .WLTH_NOT_SET
  | 1 => .WLTH_NONE
  | 2 => .WLTH_SHORT
  | 3 => .WLTH_MEDIUM
  | 4 => .WLTH_LONG
  | _ => .WLTH_EXTREME

/-- Status codes of the RocksDB `IOStatus`/`Status` values used by this code
(`IOStatus::OK`, `IOStatus::IOError`, `IOStatus::NoSpace`,
`Status::NotSupported`, `Status::Corruption`). -/
inductive StatusCode where
  | kOk
  | kIOError
  | kNoSpace
  | kNotSupported
  | kCorruption
  | kInvalidArgument
deriving DecidableEq, Repr

/-- `rocksdb::IOStatus`: a status code together with its message string. -/
structure IOStatus where
  code : StatusCode
  msg : String
deriving DecidableEq, Repr

/-- `IOStatus::OK()`. -/
def IOStatus.OK : IOStatus := { code := StatusCode.kOk, msg := "" }

/-- `IOStatus::IOError(msg)`. -/
def IOStatus.IOError (m : String) : IOStatus :=
  { code := StatusCode.kIOError, msg := m }

/-- `IOStatus::NoSpace(msg)`. -/
def IOStatus.NoSpace (m : String) : IOStatus :=
  { code := StatusCode.kNoSpace, msg := m }

/-- `struct ZoneExtentInfo` (zbd_zenfs.h, lines 44-76): the zone-side
back-reference for one extent.  `ZoneExtent*`, `ZoneFile*` and `Zone*`
pointers are modelled as identifiers; `extent_` is nullable. -/
structure ZoneExtentInfo where
  extent_ : Option Nat
  zone_file_ : Nat
  valid_ : Bool
  length_ : Nat
  start_ : Nat
  zone_ : Nat
  fname_ : String
  lt_ : WriteLifeTimeHint
  level_ : Int
deriving DecidableEq, Repr

/-- `ZoneExtentInfo::invalidate` (zbd_zenfs.h, lines 69-75):

```cpp
void invalidate() {
  assert(extent_ != nullptr);
  if (!valid_) {
    fprintf(stderr, "Try to invalidate invalid extent!\n");
  }
  valid_ = false;
};
```

`none` models the `assert` firing (null `extent_`); otherwise the result is
the updated record together with a flag recording whether the
"Try to invalidate invalid extent!" warning was printed to stderr. -/
def ZoneExtentInfo.invalidate (e : ZoneExtentInfo) :
    Option (ZoneExtentInfo × Bool) :=
  match e.extent_ with
  | none => none
  | some _ => some ({ e with valid_ := false }, !e.valid_)

/-- `class GCVictimZone` (zbd_zenfs.h, lines 78-91): a garbage-collection
victim candidate, a zone pointer with its invalid byte count. -/
structure GCVictimZone where
  zone_ : Nat
  invalid_bytes_ : Nat
deriving DecidableEq, Repr

/-- `class InvalComp` (zbd_zenfs.h, lines 93-98): the strict comparator of
`gc_queue_`; `InvalComp a b` holds when `a` ranks strictly below `b`. -/
def InvalComp (a b : GCVictimZone) : Bool :=
  a.invalid_bytes_ < b.invalid_bytes_

/-- `class AllocVictimZone` (zbd_zenfs.h, lines 100-116): an allocation
candidate, a zone pointer with its invalid and valid byte counts. -/
structure AllocVictimZone where
  zone_ : Nat
  invalid_bytes_ : Nat
  valid_bytes_ : Nat
deriving DecidableEq, Repr

/-- `class InvalValComp` (zbd_zenfs.h, lines 118-129): the strict comparator
of `allocate_queue_`:

```cpp
bool operator()(const AllocVictimZone *a, const AllocVictimZone* b) {
  if (a->get_valid_bytes() > b->get_valid_bytes()) {
    return true;
  } else if (a->get_valid_bytes() == b->get_valid_bytes()) {
    return a->get_inval_bytes() < b->get_inval_bytes();
  }
  return false;
};
``` -/
def InvalValComp (a b : AllocVictimZone) : Bool :=
  if a.valid_bytes_ > b.valid_bytes_ then true
  else if a.valid_bytes_ = b.valid_bytes_ then
    decide (a.invalid_bytes_ < b.invalid_bytes_)
  else false

/-- Dequeue precedence of
`std::priority_queue<GCVictimZone*, ..., InvalComp> gc_queue_`
(zbd_zenfs.h, line 176).  A `std::priority_queue` pops a greatest element
under its comparator first, so whenever the comparator orders `b` strictly
below `a`, every drain of a queue holding both pops `a` strictly before
`b`; ties may pop in either order. -/
def gcDequeuedBefore (a b : GCVictimZone) : Prop :=
  InvalComp b a = true

instance (a b : GCVictimZone) : Decidable (gcDequeuedBefore a b) := by
  unfold gcDequeuedBefore; infer_instance

/-- Dequeue precedence of
`std::priority_queue<AllocVictimZone*, ..., InvalValComp> allocate_queue_`
(zbd_zenfs.h, line 177), in the same sense as `gcDequeuedBefore`. -/
def allocDequeuedBefore (a b : AllocVictimZone) : Prop :=
  InvalValComp b a = true

instance (a b : AllocVictimZone) : Decidable (allocDequeuedBefore a b) := by
  unfold allocDequeuedBefore; infer_instance

/-- `class Zone` (zbd_zenfs.h, lines 131-172): the state a `Zone` object
carries that `Append` can touch.  `capacity_` is the remaining capacity,
`wp_` the write pointer, `used_capacity_` the `std::atomic<long>` count of
valid bytes, `extent_info_` the list of `ZoneExtentInfo*` entries. -/
structure Zone where
  zone_id_ : Nat
  start_ : Nat
  capacity_ : Nat
  max_capacity_ : Nat
  wp_ : Nat
  open_for_write_ : Bool
  lifetime_ : WriteLifeTimeHint
  used_capacity_ : Int
  extent_info_ : List ZoneExtentInfo
deriving DecidableEq, Repr

/-- Modelled from the spec: `Zone::Append` (zbd_zenfs.h line 156) is only
declared in the headers; its body is modelled from spec section 4.2: "on
success, `write_pointer += size`, `remaining_capacity -= size`.  If size
exceeds `remaining_capacity`, fail with *no-space*; the zone is left
unchanged."  Returns the `IOStatus` and the zone state after the call. -/
def Zone.Append (z : Zone) (size : Nat) : IOStatus × Zone :=
  if z.capacity_ < size then
    (IOStatus.NoSpace ("Not enough capacity for append"), z)
  else
    (IOStatus.OK, { z with wp_ := z.wp_ + size, capacity_ := z.capacity_ - size })

/-- `class ZoneExtent` (io_zenfs.h, lines 53-62): `(start_, length_, zone_)`
with the `Zone*` modelled as a zone identifier. -/
structure ZoneExtent where
  start_ : Nat
  length_ : Nat
  zone_ : Nat
deriving DecidableEq, Repr

/-- `class ZoneFile` (io_zenfs.h, lines 64-146): the metadata-bearing state
of a `ZoneFile` (fields `extents_`, `lifetime_`, `fileSize`, `filename_`,
`file_id_`, `nr_synced_extents_`, `smallest_`, `largest_`, `level_`);
`InternalKey` values are modelled as strings. -/
structure ZoneFile where
  extents_ : List ZoneExtent
  lifetime_ : WriteLifeTimeHint
  fileSize : Nat
  filename_ : String
  file_id_ : Nat
  nr_synced_extents_ : Nat
  smallest_ : String
  largest_ : String
  level_ : Int
deriving DecidableEq, Repr

/-- A field of the encoded file-metadata record.  Spec section 6 describes
the record as a sequence of length-prefixed fields; the token stream
abstracts from the little-endian byte layout while keeping the field
sequence and the self-description (the extent count) explicit. -/
inductive MetaToken where
  | nat (n : Nat)
  | str (s : String)
  | int (i : Int)
deriving DecidableEq, Repr

/-- Token stream of an extent list: each extent contributes
`{start:u64, length:u32, zone_id:u32}` (spec section 6). -/
def extentTokens : List ZoneExtent → List MetaToken
  | [] => []
  | e :: es =>
      MetaToken.nat e.start_ :: MetaToken.nat e.length_ ::
        MetaToken.nat e.zone_ :: extentTokens es

/-- Modelled from the spec: `ZoneFile::EncodeTo(output, extent_start)`
(io_zenfs.h line 129) is only declared in the headers; its body is modelled
from spec sections 4.4 and 6: a self-describing serialisation of
`(file_id, filename, lifetime, file_size, smallest, largest, level,
extents[extent_start..])`, with the emitted extent count in the record. -/
def ZoneFile.EncodeTo (f : ZoneFile) (extent_start : Nat) : List MetaToken :=
  MetaToken.nat f.file_id_ :: MetaToken.str f.filename_ ::
    MetaToken.nat f.lifetime_.code :: MetaToken.nat f.fileSize ::
    MetaToken.str f.smallest_ :: MetaToken.str f.largest_ ::
    MetaToken.int f.level_ ::
    MetaToken.nat (f.extents_.drop extent_start).length ::
    extentTokens (f.extents_.drop extent_start)

/-- `ZoneFile::EncodeUpdateTo` (io_zenfs.h, lines 130-132):
`EncodeTo(output, nr_synced_extents_)`. -/
def ZoneFile.EncodeUpdateTo (f : ZoneFile) : List MetaToken :=
  f.EncodeTo f.nr_synced_extents_

/-- `ZoneFile::EncodeSnapshotTo` (io_zenfs.h, line 133): `EncodeTo(output, 0)`. -/
def ZoneFile.EncodeSnapshotTo (f : ZoneFile) : List MetaToken :=
  f.EncodeTo 0

/-- `ZoneFile::MetadataSynced` (io_zenfs.h, line 134):
`nr_synced_extents_ = extents_.size()`. -/
def ZoneFile.MetadataSynced (f : ZoneFile) : ZoneFile :=
  { f with nr_synced_extents_ := f.extents_.length }

/-- Decode `n` encoded extents from the front of a token stream, returning
the extents and the remaining tokens. -/
def decodeExtents : Nat → List MetaToken → Option (List ZoneExtent × List MetaToken)
  | 0, rest => some ([], rest)
  | n + 1, MetaToken.nat s :: MetaToken.nat l :: MetaToken.nat z :: rest =>
      match decodeExtents n rest with
      | some (es, r) => some ({ start_ := s, length_ := l, zone_ := z } :: es, r)
      | none => none
  | _ + 1, _ => none

/-- Modelled from the spec: `ZoneFile::DecodeFrom` (io_zenfs.h line 136) is
only declared in the headers; its body is modelled from spec sections 4.4
and 6 as the inverse of `ZoneFile.EncodeTo`: parse the header fields, then
the announced number of extents, requiring the input to be fully consumed.
The spec does not fix `nr_synced_extents` of a freshly decoded in-memory
file; it is taken to be 0 (nothing of the new in-memory copy is synced). -/
def ZoneFile.DecodeFrom (input : List MetaToken) : Option ZoneFile :=
  match input with
  | MetaToken.nat fid :: MetaToken.str fn :: MetaToken.nat lt ::
      MetaToken.nat fsz :: MetaToken.str sm :: MetaToken.str lg ::
      MetaToken.int lvl :: MetaToken.nat n :: rest =>
    match decodeExtents n rest with
    | some (exts, []) =>
        some { extents_ := exts, lifetime_ := WriteLifeTimeHint.ofCode lt,
               fileSize := fsz, filename_ := fn, file_id_ := fid,
               nr_synced_extents_ := 0, smallest_ := sm, largest_ := lg,
               level_ := lvl }
    | _ => none
  | _ => none

/-- The file that `ZoneFile.DecodeFrom` reconstructs from `f.EncodeTo n`:
the header fields of `f` together with the extents from index `n` on. -/
def decodedOf (f : ZoneFile) (n : Nat) : ZoneFile :=
  { extents_ := f.extents_.drop n, lifetime_ := f.lifetime_,
    fileSize := f.fileSize, filename_ := f.filename_, file_id_ := f.file_id_,
    nr_synced_extents_ := 0, smallest_ := f.smallest_, largest_ := f.largest_,
    level_ := f.level_ }

/-- Modelled from the spec: `ZoneFile::MergeUpdate` (io_zenfs.h line 137) is
only declared in the headers; its body is modelled from spec section 4.4:
"replay a delta onto an existing in-memory `ZoneFile`; appends new extents
and updates file-size/keys; fails if `file_id`s differ." -/
def ZoneFile.MergeUpdate (self update : ZoneFile) : Except StatusCode ZoneFile :=
  if self.file_id_ ≠ update.file_id_ then
    Except.error StatusCode.kCorruption
  else
    Except.ok { self with
      extents_ := self.extents_ ++ update.extents_,
      fileSize := update.fileSize,
      smallest_ := update.smallest_,
      largest_ := update.largest_ }

/-- Equality of the durable metadata fields of two `ZoneFile`s:
file_id, filename, lifetime, file_size, keys, level and the extent list
(everything the encoded record carries). -/
def metaEq (a b : ZoneFile) : Prop :=
  a.file_id_ = b.file_id_ ∧ a.filename_ = b.filename_ ∧
    a.lifetime_ = b.lifetime_ ∧ a.fileSize = b.fileSize ∧
    a.smallest_ = b.smallest_ ∧ a.largest_ = b.largest_ ∧
    a.level_ = b.level_ ∧ a.extents_ = b.extents_

instance (a b : ZoneFile) : Decidable (metaEq a b) := by
  unfold metaEq; infer_instance

/-- `rocksdb::FileOptions`: only `use_direct_reads` matters here. -/
structure FileOptions where
  use_direct_reads : Bool
deriving DecidableEq, Repr

/-- `class ZonedSequentialFile` (io_zenfs.h, lines 216-244): wraps a
`ZoneFile*` with a read position and the stored direct-read flag. -/
structure ZonedSequentialFile where
  zoneFile_ : Nat
  rp : Nat
  direct_ : Bool
deriving DecidableEq, Repr

/-- The `ZonedSequentialFile` constructor (io_zenfs.h, lines 223-224):
`zoneFile_(zoneFile), rp(0), direct_(file_opts.use_direct_reads)`. -/
def mkZonedSequentialFile (zoneFile : Nat) (file_opts : FileOptions) :
    ZonedSequentialFile :=
  { zoneFile_ := zoneFile, rp := 0, direct_ := file_opts.use_direct_reads }

namespace ZonedSequentialFile

/-- `ZonedSequentialFile::use_direct_io` (io_zenfs.h, lines 233-235):
`{ /*return target_->use_direct_io(); */ return true; }`. -/
def use_direct_io (_f : ZonedSequentialFile) : Bool := true

end ZonedSequentialFile

/-- `class ZonedWritableFile` (io_zenfs.h, lines 148-214): the `buffered`
flag is all `use_direct_io` consults. -/
structure ZonedWritableFile where
  zoneFile_ : Nat
  buffered : Bool
deriving DecidableEq, Repr

namespace ZonedWritableFile

/-- `ZonedWritableFile::use_direct_io` (io_zenfs.h, line 190):
`return !buffered;`. -/
def use_direct_io (f : ZonedWritableFile) : Bool := !f.buffered

end ZonedWritableFile

/-- `class ZonedRandomAccessFile` (io_zenfs.h, lines 246-283). -/
structure ZonedRandomAccessFile where
  zoneFile_ : Nat
  direct_ : Bool
deriving DecidableEq, Repr

/-- The `ZonedRandomAccessFile` constructor (io_zenfs.h, lines 252-254):
`zoneFile_(zoneFile), direct_(file_opts.use_direct_reads)`. -/
def mkZonedRandomAccessFile (zoneFile : Nat) (file_opts : FileOptions) :
    ZonedRandomAccessFile :=
  { zoneFile_ := zoneFile, direct_ := file_opts.use_direct_reads }

namespace ZonedRandomAccessFile

/-- `ZonedRandomAccessFile::use_direct_io` (io_zenfs.h, line 272):
`return true;`. -/
def use_direct_io (_f : ZonedRandomAccessFile) : Bool := true

/-- `ZonedRandomAccessFile::MultiRead` (io_zenfs.h, lines 260-264): ignores
its requests and returns `IOStatus::IOError("Not implemented")`; no read is
performed.  Requests are modelled as an (ignored) list. -/
def MultiRead (_f : ZonedRandomAccessFile) (_reqs : List Nat) : IOStatus :=
  IOStatus.IOError ("Not implemented")

/-- `ZonedRandomAccessFile::Prefetch` (io_zenfs.h, lines 266-270): ignores
its arguments and returns `IOStatus::OK()`. -/
def Prefetch (_f : ZonedRandomAccessFile) (_offset _n : Nat) : IOStatus :=
  IOStatus.OK

end ZonedRandomAccessFile

/-- Configured zone quotas of the pool (`max_nr_open_io_zones_`,
`max_nr_active_io_zones_`, zbd_zenfs.h lines 200-201). -/
structure ZBDConfig where
  max_nr_open_io_zones_ : Nat
  max_nr_active_io_zones_ : Nat
deriving DecidableEq, Repr

/-- The open/active counters of the pool (`open_io_zones_`,
`active_io_zones_`, zbd_zenfs.h lines 195-196), modelled as naturals. -/
structure ZBDResources where
  open_io_zones_ : Nat
  active_io_zones_ : Nat
deriving DecidableEq, Repr

/-- Modelled from the spec: the admission protocol of `AllocateZone`,
`NotifyIOZoneFull`, `NotifyIOZoneClosed` and ZC reset (zbd_zenfs.h lines
247, 268-269; bodies are only declared in the headers).  Spec sections 4.3
and 5: `AllocateZone` blocks until `open_io_zones < max_open` and
`active_io_zones < max_active`, then increments `open_io_zones` and
increments `active_io_zones` iff the zone was previously empty;
`NotifyIOZoneClosed` moves a zone open→not-open (open counter drops);
`NotifyIOZoneFull` moves a zone to full-and-closed, which leaves both the
open count and (per the spec's definition of active) the active count;
a ZC reset retires an active zone. -/
inductive ZBDStep (cfg : ZBDConfig) : ZBDResources → ZBDResources → Prop where
  | allocate (s : ZBDResources) (fresh : Bool)
      (hopen : s.open_io_zones_ < cfg.max_nr_open_io_zones_)
      (hactive : s.active_io_zones_ < cfg.max_nr_active_io_zones_) :
      ZBDStep cfg s
        { open_io_zones_ := s.open_io_zones_ + 1,
          active_io_zones_ :=
            if fresh then s.active_io_zones_ + 1 else s.active_io_zones_ }
  | notifyIOZoneClosed (s : ZBDResources)
      (hopen : 0 < s.open_io_zones_) :
      ZBDStep cfg s
        { open_io_zones_ := s.open_io_zones_ - 1,
          active_io_zones_ := s.active_io_zones_ }
  | notifyIOZoneFull (s : ZBDResources)
      (hopen : 0 < s.open_io_zones_) (hactive : 0 < s.active_io_zones_) :
      ZBDStep cfg s
        { open_io_zones_ := s.open_io_zones_ - 1,
          active_io_zones_ := s.active_io_zones_ - 1 }
  | zcReset (s : ZBDResources)
      (hactive : 0 < s.active_io_zones_) :
      ZBDStep cfg s
        { open_io_zones_ := s.open_io_zones_,
          active_io_zones_ := s.active_io_zones_ - 1 }

/-- States of the counters reachable from mount time (both counters 0)
through the admission protocol. -/
inductive ZBDReachable (cfg : ZBDConfig) : ZBDResources → Prop where
  | init : ZBDReachable cfg { open_io_zones_ := 0, active_io_zones_ := 0 }
  | step {s t : ZBDResources} :
      ZBDReachable cfg s → ZBDStep cfg s t → ZBDReachable cfg t

/-- Concrete `ZoneFile` used to exercise the metadata theorems: one synced
extent. -/
def sampleBaseFile : ZoneFile :=
  { extents_ := [{ start_ := 0, length_ := 4096, zone_ := 0 }],
    lifetime_ := WriteLifeTimeHint.WLTH_SHORT, fileSize := 4096,
    filename_ := "000001.sst", file_id_ := 7, nr_synced_extents_ := 1,
    smallest_ := "k1", largest_ := "k2", level_ := 1 }

/-- `sampleBaseFile` after one further append of a second extent. -/
def sampleGrownFile : ZoneFile :=
  { extents_ := [{ start_ := 0, length_ := 4096, zone_ := 0 },
                 { start_ := 4096, length_ := 4096, zone_ := 1 }],
    lifetime_ := WriteLifeTimeHint.WLTH_SHORT, fileSize := 8192,
    filename_ := "000001.sst", file_id_ := 7, nr_synced_extents_ := 1,
    smallest_ := "k1", largest_ := "k3", level_ := 1 }

/-- A `ZoneFile` with a different `file_id_` than `sampleBaseFile`. -/
def sampleOtherFile : ZoneFile :=
  { sampleBaseFile with file_id_ := 8 }

/-- Concrete `Zone` used to exercise the `Zone.Append` theorem. -/
def sampleZone : Zone :=
  { zone_id_ := 5, start_ := 1048576, capacity_ := 100,
    max_capacity_ := 1048576, wp_ := 2097052, open_for_write_ := true,
    lifetime_ := WriteLifeTimeHint.WLTH_MEDIUM, used_capacity_ := 1048476,
    extent_info_ := [] }

/-! ## Helper lemmas -/

/-- Decoding a lifetime code recovers the lifetime hint. -/
theorem WriteLifeTimeHint.ofCode_code (h : WriteLifeTimeHint) :
    WriteLifeTimeHint.ofCode h.code = h := by
  cases h <;> rfl

/-- `decodeExtents` inverts `extentTokens`, leaving the trailing tokens. -/
theorem decodeExtents_extentTokens (l : List ZoneExtent) (rest : List MetaToken) :
    decodeExtents l.length (extentTokens l ++ rest) = some (l, rest) := by
  induction l with
  | nil => rfl
  | cons e es ih => simp [extentTokens, decodeExtents, ih]

/-- `ZoneFile.DecodeFrom` inverts `ZoneFile.EncodeTo`: the decoded file
carries the encoded header fields and exactly the extents from index
`n` on. -/
theorem DecodeFrom_EncodeTo (f : ZoneFile) (n : Nat) :
    ZoneFile.DecodeFrom (f.EncodeTo n) = some (decodedOf f n) := by
  have h := decodeExtents_extentTokens (f.extents_.drop n) []
  rw [List.append_nil, List.length_drop] at h
  simp [ZoneFile.DecodeFrom, ZoneFile.EncodeTo, decodedOf, h,
    WriteLifeTimeHint.ofCode_code]

/-! ## Claim theorems -/

/-- C1, counterexample: the claim says the allocation queue pops the zone
with strictly more valid bytes first; for the concrete candidates `a` with
2 valid bytes and `b` with 1 valid byte (equal invalid bytes), `a` has more
valid bytes yet is *not* dequeued before `b` — on the contrary `b` is
dequeued strictly before `a`. -/
theorem alloc_queue_claim_counterexample :
    (({ zone_ := 0, invalid_bytes_ := 0, valid_bytes_ := 2 } : AllocVictimZone).valid_bytes_ >
      ({ zone_ := 1, invalid_bytes_ := 0, valid_bytes_ := 1 } : AllocVictimZone).valid_bytes_) ∧
    ¬ allocDequeuedBefore
        { zone_ := 0, invalid_bytes_ := 0, valid_bytes_ := 2 }
        { zone_ := 1, invalid_bytes_ := 0, valid_bytes_ := 1 } ∧
    allocDequeuedBefore
        { zone_ := 1, invalid_bytes_ := 0, valid_bytes_ := 1 }
        { zone_ := 0, invalid_bytes_ := 0, valid_bytes_ := 2 } := by
  decide

/-- C1, amended: `allocate_queue_` yields zones ordered first by
*increasing* valid bytes (the zone with the fewest valid bytes is popped
first), with ties on valid bytes broken by decreasing invalid bytes. -/
theorem alloc_queue_order (a b : AllocVictimZone) :
    (a.valid_bytes_ < b.valid_bytes_ → allocDequeuedBefore a b) ∧
    (a.valid_bytes_ = b.valid_bytes_ → b.invalid_bytes_ < a.invalid_bytes_ →
      allocDequeuedBefore a b) := by
  constructor
  · intro h
    unfold allocDequeuedBefore InvalValComp
    simp only [gt_iff_lt]
    rw [if_pos h]
  · intro h1 h2
    unfold allocDequeuedBefore InvalValComp
    simp only [gt_iff_lt]
    rw [if_neg (by omega), if_pos h1.symm]
    exact decide_eq_true h2

/-- C1 witness: the amended ordering at concrete candidates — fewer valid
bytes wins, and on a valid-bytes tie more invalid bytes wins. -/
theorem alloc_queue_order_witness :
    allocDequeuedBefore
      { zone_ := 0, invalid_bytes_ := 9, valid_bytes_ := 1 }
      { zone_ := 1, invalid_bytes_ := 0, valid_bytes_ := 5 } ∧
    allocDequeuedBefore
      { zone_ := 2, invalid_bytes_ := 8, valid_bytes_ := 4 }
      { zone_ := 3, invalid_bytes_ := 3, valid_bytes_ := 4 } :=
  ⟨(alloc_queue_order _ _).1 (by decide),
   (alloc_queue_order _ _).2 (by decide) (by decide)⟩

/-- C2: `gc_queue_` pops victims in decreasing order of invalid bytes:
whenever victim `a` has strictly more invalid bytes than victim `b`, `a` is
dequeued before `b`. -/
theorem gc_queue_order (a b : GCVictimZone)
    (h : b.invalid_bytes_ < a.invalid_bytes_) : gcDequeuedBefore a b := by
  unfold gcDequeuedBefore InvalComp
  exact decide_eq_true h

/-- C2 witness: the GC ordering at concrete victims. -/
theorem gc_queue_order_witness :
    gcDequeuedBefore
      { zone_ := 0, invalid_bytes_ := 7 }
      { zone_ := 1, invalid_bytes_ := 3 } :=
  gc_queue_order _ _ (by decide)

/-- C3, counterexample: the claim says invalidating an already-invalid
extent triggers an assertion failure; for this concrete `ZoneExtentInfo`
with `valid_ = false` and a non-null `extent_`, `invalidate` does *not*
assert (it completes, returning an updated record). -/
theorem invalidate_double_claim_counterexample :
    ZoneExtentInfo.invalidate
        { extent_ := some 0, zone_file_ := 0, valid_ := false, length_ := 4096,
          start_ := 0, zone_ := 0, fname_ := "000001.sst",
          lt_ := WriteLifeTimeHint.WLTH_NOT_SET, level_ := 0 } ≠ none := by
  simp [ZoneExtentInfo.invalidate]

/-- C3, amended: invalidating an already-invalid extent is detected by
printing the "Try to invalidate invalid extent!" warning to stderr, not by
an assertion: for every `ZoneExtentInfo` with a non-null extent pointer
whose `valid_` flag is already false, `invalidate` completes, reports the
warning, and leaves `valid_` false.  (The only assertion in `invalidate`
checks `extent_ != nullptr`.) -/
theorem invalidate_double_warns (e : ZoneExtentInfo) (p : Nat)
    (hext : e.extent_ = some p) (hval : e.valid_ = false) :
    ZoneExtentInfo.invalidate e = some ({ e with valid_ := false }, true) := by
  unfold ZoneExtentInfo.invalidate
  rw [hext, hval]
  rfl

/-- C3 witness: the warning path at a concrete already-invalid extent. -/
theorem invalidate_double_warns_witness :
    ZoneExtentInfo.invalidate
        { extent_ := some 0, zone_file_ := 1, valid_ := false, length_ := 4096,
          start_ := 0, zone_ := 2, fname_ := "000002.sst",
          lt_ := WriteLifeTimeHint.WLTH_LONG, level_ := 2 } =
      some ({ extent_ := some 0, zone_file_ := 1, valid_ := false,
              length_ := 4096, start_ := 0, zone_ := 2, fname_ := "000002.sst",
              lt_ := WriteLifeTimeHint.WLTH_LONG, level_ := 2 }, true) :=
  invalidate_double_warns _ 0 rfl rfl

/-- C10: invalidation is absorbing — `invalidate` asserts exactly when the
back-referenced extent pointer is null, and whenever it completes the
resulting `valid_` flag is false, whatever its prior value.  (`invalidate`
is the only operation on `ZoneExtentInfo` in the source besides the
constructor, so no operation moves `valid_` from false back to true.) -/
theorem invalidate_absorbing (e : ZoneExtentInfo) :
    (ZoneExtentInfo.invalidate e = none ↔ e.extent_ = none) ∧
    (∀ (e2 : ZoneExtentInfo) (w : Bool),
        ZoneExtentInfo.invalidate e = some (e2, w) → e2.valid_ = false) := by
  cases he : e.extent_ with
  | none =>
      refine ⟨by simp [ZoneExtentInfo.invalidate, he], ?_⟩
      intro e2 w h
      simp [ZoneExtentInfo.invalidate, he] at h
  | some p =>
      refine ⟨by simp [ZoneExtentInfo.invalidate, he], ?_⟩
      intro e2 w h
      simp only [ZoneExtentInfo.invalidate, he, Option.some.injEq, Prod.mk.injEq] at h
      rw [← h.1]

/-- C10 witness: invalidating a concrete valid extent yields `valid_ = false`. -/
theorem invalidate_absorbing_witness :
    ZoneExtentInfo.valid_
      { extent_ := some 1, zone_file_ := 2, valid_ := false, length_ := 8,
        start_ := 16, zone_ := 3, fname_ := "000003.sst",
        lt_ := WriteLifeTimeHint.WLTH_SHORT, level_ := 1 } = false :=
  (invalidate_absorbing
      { extent_ := some 1, zone_file_ := 2, valid_ := true, length_ := 8,
        start_ := 16, zone_ := 3, fname_ := "000003.sst",
        lt_ := WriteLifeTimeHint.WLTH_SHORT, level_ := 1 }).2
    { extent_ := some 1, zone_file_ := 2, valid_ := false, length_ := 8,
      start_ := 16, zone_ := 3, fname_ := "000003.sst",
      lt_ := WriteLifeTimeHint.WLTH_SHORT, level_ := 1 } false rfl

/-- C4, counterexample: the claim says a sequential file constructed with
`use_direct_reads` false reports `use_direct_io()` false; for the concrete
`ZonedSequentialFile` built with `use_direct_reads := false`,
`use_direct_io` does not return false (it returns true). -/
theorem seq_use_direct_claim_counterexample :
    ¬ (ZonedSequentialFile.use_direct_io
        (mkZonedSequentialFile 0 { use_direct_reads := false }) = false) := by
  decide

/-- C4, amended: a sequential-read handle reports direct I/O as required
*unconditionally*, whatever `use_direct_reads` its options carried (the
requested flag is stored in `direct_` but never consulted by
`use_direct_io`); unbuffered writers report `!buffered` and random-access
readers always report true. -/
theorem use_direct_reporting :
    (∀ (zf : Nat) (opts : FileOptions),
        ZonedSequentialFile.use_direct_io (mkZonedSequentialFile zf opts) = true ∧
        (mkZonedSequentialFile zf opts).direct_ = opts.use_direct_reads) ∧
    (∀ f : ZonedWritableFile, ZonedWritableFile.use_direct_io f = !f.buffered) ∧
    (∀ f : ZonedRandomAccessFile, ZonedRandomAccessFile.use_direct_io f = true) :=
  ⟨fun _ _ => ⟨rfl, rfl⟩, fun _ => rfl, fun _ => rfl⟩

/-- C5, counterexample: the claim says `MultiRead` returns an error of the
Not-Implemented kind as distinct from an IO-Error; for a concrete handle
and an empty request set, the returned status kind *is* `kIOError` and is
not `kNotSupported` (the message string, not the kind, says
"Not implemented"). -/
theorem multiread_claim_counterexample :
    (ZonedRandomAccessFile.MultiRead { zoneFile_ := 0, direct_ := true } []).code =
        StatusCode.kIOError ∧
    (ZonedRandomAccessFile.MultiRead { zoneFile_ := 0, direct_ := true } []).code ≠
        StatusCode.kNotSupported := by
  decide

/-- C5, amended: for every random-access handle and every request set,
`MultiRead` performs no read and returns `IOStatus::IOError` carrying the
message "Not implemented" (an IO-Error-kind status, not a NotSupported
one), while `Prefetch` always returns OK. -/
theorem multiread_prefetch_status :
    (∀ (f : ZonedRandomAccessFile) (reqs : List Nat),
        ZonedRandomAccessFile.MultiRead f reqs =
            IOStatus.IOError ("Not implemented") ∧
        (ZonedRandomAccessFile.MultiRead f reqs).code = StatusCode.kIOError) ∧
    (∀ (f : ZonedRandomAccessFile) (off n : Nat),
        ZonedRandomAccessFile.Prefetch f off n = IOStatus.OK) :=
  ⟨fun _ _ => ⟨rfl, rfl⟩, fun _ _ _ => rfl⟩

/-- C6: the delta encoding `EncodeUpdateTo` emits exactly the extents with
index at least `nr_synced_extents_` (the emitted list is the suffix whose
element `i` is extent `nr_synced_extents_ + i` of the file, and its length
is `|extents| - nr_synced`), the snapshot encoding emits all extents from
index 0, `MetadataSynced` sets `nr_synced_extents_` to the extent-list
length, and immediately after `MetadataSynced` the delta encoding carries
zero extents. -/
theorem encode_delta_snapshot (f : ZoneFile) :
    (f.EncodeUpdateTo =
        MetaToken.nat f.file_id_ :: MetaToken.str f.filename_ ::
        MetaToken.nat f.lifetime_.code :: MetaToken.nat f.fileSize ::
        MetaToken.str f.smallest_ :: MetaToken.str f.largest_ ::
        MetaToken.int f.level_ ::
        MetaToken.nat (f.extents_.length - f.nr_synced_extents_) ::
        extentTokens (f.extents_.drop f.nr_synced_extents_)) ∧
    (∀ i : Nat, (f.extents_.drop f.nr_synced_extents_)[i]? =
        f.extents_[f.nr_synced_extents_ + i]?) ∧
    (f.EncodeSnapshotTo =
        MetaToken.nat f.file_id_ :: MetaToken.str f.filename_ ::
        MetaToken.nat f.lifetime_.code :: MetaToken.nat f.fileSize ::
        MetaToken.str f.smallest_ :: MetaToken.str f.largest_ ::
        MetaToken.int f.level_ ::
        MetaToken.nat f.extents_.length :: extentTokens f.extents_) ∧
    f.MetadataSynced.nr_synced_extents_ = f.extents_.length ∧
    f.MetadataSynced.EncodeUpdateTo =
        MetaToken.nat f.file_id_ :: MetaToken.str f.filename_ ::
        MetaToken.nat f.lifetime_.code :: MetaToken.nat f.fileSize ::
        MetaToken.str f.smallest_ :: MetaToken.str f.largest_ ::
        MetaToken.int f.level_ :: MetaToken.nat 0 :: extentTokens [] := by
  refine ⟨?_, ?_, ?_, rfl, ?_⟩
  · simp [ZoneFile.EncodeUpdateTo, ZoneFile.EncodeTo]
  · intro i
    exact List.getElem?_drop f.extents_ f.nr_synced_extents_ i
  · simp [ZoneFile.EncodeSnapshotTo, ZoneFile.EncodeTo]
  · simp [ZoneFile.EncodeUpdateTo, ZoneFile.EncodeTo, ZoneFile.MetadataSynced,
      List.drop_length]

/-- C7: metadata serialisation round-trips — decoding an encoded snapshot
reconstructs a file with the same file_id, filename, lifetime, file_size,
keys, level and extent list; `MergeUpdate` fails with Corruption when the
file_ids differ; and replaying a snapshot taken at sync time followed by
the later delta through `MergeUpdate` yields (up to the durable metadata
fields) the same file as decoding one full snapshot taken after the later
appends. -/
theorem metadata_roundtrip_merge :
    (∀ f : ZoneFile, ∃ g, ZoneFile.DecodeFrom f.EncodeSnapshotTo = some g ∧
        metaEq g f) ∧
    (∀ a b : ZoneFile, a.file_id_ ≠ b.file_id_ →
        ZoneFile.MergeUpdate a b = Except.error StatusCode.kCorruption) ∧
    (∀ (f0 f1 : ZoneFile) (es : List ZoneExtent),
        f1.file_id_ = f0.file_id_ →
        f1.filename_ = f0.filename_ →
        f1.lifetime_ = f0.lifetime_ →
        f1.level_ = f0.level_ →
        f1.extents_ = f0.extents_ ++ es →
        f1.nr_synced_extents_ = f0.extents_.length →
        ∃ g0 d g1 g2,
          ZoneFile.DecodeFrom f0.MetadataSynced.EncodeSnapshotTo = some g0 ∧
          ZoneFile.DecodeFrom f1.EncodeUpdateTo = some d ∧
          ZoneFile.MergeUpdate g0 d = Except.ok g1 ∧
          ZoneFile.DecodeFrom f1.EncodeSnapshotTo = some g2 ∧
          metaEq g1 g2) := by
  refine ⟨?_, ?_, ?_⟩
  · intro f
    refine ⟨decodedOf f 0, DecodeFrom_EncodeTo f 0, ?_⟩
    simp [metaEq, decodedOf]
  · intro a b h
    simp [ZoneFile.MergeUpdate, h]
  · intro f0 f1 es hid hname hlt hlvl hext hsync
    refine ⟨decodedOf f0.MetadataSynced 0, decodedOf f1 f1.nr_synced_extents_,
      { extents_ := f0.extents_ ++ es, lifetime_ := f0.lifetime_,
        fileSize := f1.fileSize, filename_ := f0.filename_,
        file_id_ := f0.file_id_, nr_synced_extents_ := 0,
        smallest_ := f1.smallest_, largest_ := f1.largest_,
        level_ := f0.level_ },
      decodedOf f1 0,
      DecodeFrom_EncodeTo f0.MetadataSynced 0,
      DecodeFrom_EncodeTo f1 f1.nr_synced_extents_, ?_,
      DecodeFrom_EncodeTo f1 0, ?_⟩
    · simp [ZoneFile.MergeUpdate, decodedOf, ZoneFile.MetadataSynced, hid,
        hext, hsync, List.drop_left]
    · simp [metaEq, decodedOf, hid, hname, hlt, hlvl, hext]

/-- C7 witness: the round-trip, the id-mismatch failure, and the
delta-then-merge equality at the concrete sample files. -/
theorem metadata_roundtrip_merge_witness :
    (∃ g, ZoneFile.DecodeFrom sampleBaseFile.EncodeSnapshotTo = some g ∧
        metaEq g sampleBaseFile) ∧
    ZoneFile.MergeUpdate sampleBaseFile sampleOtherFile =
        Except.error StatusCode.kCorruption ∧
    (∃ g0 d g1 g2,
        ZoneFile.DecodeFrom sampleBaseFile.MetadataSynced.EncodeSnapshotTo =
            some g0 ∧
        ZoneFile.DecodeFrom sampleGrownFile.EncodeUpdateTo = some d ∧
        ZoneFile.MergeUpdate g0 d = Except.ok g1 ∧
        ZoneFile.DecodeFrom sampleGrownFile.EncodeSnapshotTo = some g2 ∧
        metaEq g1 g2) :=
  ⟨metadata_roundtrip_merge.1 sampleBaseFile,
   metadata_roundtrip_merge.2.1 sampleBaseFile sampleOtherFile (by decide),
   metadata_roundtrip_merge.2.2 sampleBaseFile sampleGrownFile
     [{ start_ := 4096, length_ := 4096, zone_ := 1 }]
     rfl rfl rfl rfl rfl rfl⟩

/-- C8: appending more bytes than a zone's remaining capacity fails with a
no-space status and leaves the whole zone state — in particular the write
pointer, remaining capacity, used capacity and extent-info list —
unchanged. -/
theorem zone_append_no_space (z : Zone) (size : Nat)
    (h : z.capacity_ < size) :
    (Zone.Append z size).1.code = StatusCode.kNoSpace ∧
    (Zone.Append z size).2 = z ∧
    (Zone.Append z size).2.wp_ = z.wp_ ∧
    (Zone.Append z size).2.capacity_ = z.capacity_ ∧
    (Zone.Append z size).2.used_capacity_ = z.used_capacity_ ∧
    (Zone.Append z size).2.extent_info_ = z.extent_info_ := by
  unfold Zone.Append
  rw [if_pos h]
  exact ⟨rfl, rfl, rfl, rfl, rfl, rfl⟩

/-- C8 witness: a 200-byte append on the sample zone with 100 bytes of
remaining capacity fails and changes nothing. -/
theorem zone_append_no_space_witness :
    (Zone.Append sampleZone 200).1.code = StatusCode.kNoSpace ∧
    (Zone.Append sampleZone 200).2 = sampleZone ∧
    (Zone.Append sampleZone 200).2.wp_ = sampleZone.wp_ ∧
    (Zone.Append sampleZone 200).2.capacity_ = sampleZone.capacity_ ∧
    (Zone.Append sampleZone 200).2.used_capacity_ = sampleZone.used_capacity_ ∧
    (Zone.Append sampleZone 200).2.extent_info_ = sampleZone.extent_info_ :=
  zone_append_no_space sampleZone 200 (by decide)

/-- C9: in every state of the open/active counters reachable from mount
through the admission protocol (allocation guarded by both quotas, the
close/full notifications and ZC resets releasing them), the open I/O zone
count stays at most `max_nr_open_io_zones_` and the active I/O zone count
stays at most `max_nr_active_io_zones_`. -/
theorem zone_quota_invariant (cfg : ZBDConfig) (s : ZBDResources)
    (h : ZBDReachable cfg s) :
    s.open_io_zones_ ≤ cfg.max_nr_open_io_zones_ ∧
    s.active_io_zones_ ≤ cfg.max_nr_active_io_zones_ := by
  induction h with
  | init => exact ⟨Nat.zero_le _, Nat.zero_le _⟩
  | step hr hs ih =>
      obtain ⟨ih1, ih2⟩ := ih
      cases hs with
      | allocate fresh hopen hactive =>
          cases fresh <;> refine ⟨?_, ?_⟩ <;> simp <;> omega
      | notifyIOZoneClosed hopen =>
          refine ⟨?_, ?_⟩ <;> simp <;> omega
      | notifyIOZoneFull hopen hactive =>
          refine ⟨?_, ?_⟩ <;> simp <;> omega
      | zcReset hactive =>
          refine ⟨?_, ?_⟩ <;> simp <;> omega

/-- C9 witness: with quotas (2, 3), the state after one fresh allocation
from mount is reachable and within both quotas. -/
theorem zone_quota_invariant_witness :
    ({ open_io_zones_ := 1, active_io_zones_ := 1 } : ZBDResources).open_io_zones_ ≤
        ({ max_nr_open_io_zones_ := 2, max_nr_active_io_zones_ := 3 } : ZBDConfig).max_nr_open_io_zones_ ∧
    ({ open_io_zones_ := 1, active_io_zones_ := 1 } : ZBDResources).active_io_zones_ ≤
        ({ max_nr_open_io_zones_ := 2, max_nr_active_io_zones_ := 3 } : ZBDConfig).max_nr_active_io_zones_ :=
  zone_quota_invariant
    { max_nr_open_io_zones_ := 2, max_nr_active_io_zones_ := 3 }
    { open_io_zones_ := 1, active_io_zones_ := 1 }
    (ZBDReachable.step ZBDReachable.init
      (ZBDStep.allocate { open_io_zones_ := 0, active_io_zones_ := 0 } true
        (by decide) (by decide)))

end ZenFS
